import Mathlib

/-!
Verification of the diagnostic-output subsystem in `src/dvc/logger.py`.

The file gives a shallow embedding of the module: numeric severity levels,
log records, the `ColorFormatter`, the `LoggerHandler` sink bindings built
by `setup`, the `emit` control flow, the `addLoggingLevel` registration of
the custom `TRACE` level, and the logger-registry effects of `setup` and
`disable_other_loggers`.  External collaborators (the `logging` standard
library internals, `colorama`, `Tqdm.write`) are modelled by explicit state
or by outcome parameters, as noted at each definition.
-/

namespace DvcLogger

/-- Numeric level `logging.NOTSET` of the Python logging module. -/
def NOTSET : Nat := 0

/-- Numeric level `logging.DEBUG`. -/
def DEBUG : Nat := 10

/-- Numeric level `logging.INFO`. -/
def INFO : Nat := 20

/-- Numeric level `logging.WARNING`. -/
def WARNING : Nat := 30

/-- Numeric level `logging.ERROR`. -/
def ERROR : Nat := 40

/-- Numeric level `logging.CRITICAL`. -/
def CRITICAL : Nat := 50

/-- Numeric level of the custom `TRACE` level registered by
`addLoggingLevel("TRACE", logging.DEBUG - 5)` in `setup` (line 211).
In the standard logging-module state no `TRACE` attribute pre-exists,
so the registered value is `DEBUG - 5 = 5`. -/
def TRACE : Nat := DEBUG - 5

/-- Terminal escape code `colorama.Fore.RESET`. -/
def RESET : String := "\x1b[39m"

/-- Terminal escape code `colorama.Fore.GREEN`. -/
def GREEN : String := "\x1b[32m"

/-- Terminal escape code `colorama.Fore.BLUE`. -/
def BLUE : String := "\x1b[34m"

/-- Terminal escape code `colorama.Fore.YELLOW`. -/
def YELLOW : String := "\x1b[33m"

/-- Terminal escape code `colorama.Fore.RED`. -/
def RED : String := "\x1b[31m"

/-- An exception value as seen by the logger: its `str()` rendering, the
traceback text that `Formatter.formatException` would produce for it, the
presence of the dynamic `__pretty_exc__` capability checked by
`LoggerHandler.emit` (line 154), and the optional explicit cause
(`exc.__cause__`) followed by `_iter_causes` (lines 177-180). -/
inductive Err where
  | mk (str : String) (tb : String) (pretty : Bool) (cause : Option Err)

/-- The `str()` rendering of the exception. -/
def Err.str : Err → String
  | .mk s _ _ _ => s

/-- The traceback text `formatException` renders for the exception. -/
def Err.tb : Err → String
  | .mk _ t _ _ => t

/-- Whether the exception exposes the `__pretty_exc__` capability. -/
def Err.pretty : Err → Bool
  | .mk _ _ p _ => p

/-- The explicit cause `exc.__cause__`, when present. -/
def Err.cause : Err → Option Err
  | .mk _ _ _ c => c

/-- A `logging.LogRecord` as consumed by this module: logger name, numeric
level, level name, raw message and positional arguments, optional exception
value, cached exception text (`record.exc_text`, empty string standing for
the Python falsy values None and ""), stack context (`record.stack_info`,
empty string standing for None), the extra `tb_only` flag read with
`getattr(record, "tb_only", False)` (line 113), and the creation time used
by `formatTime`. -/
structure Record where
  name : String
  levelno : Nat
  levelname : String
  msg : String
  args : List String
  exc_info : Option Err
  exc_text : String
  stack_info : String
  tb_only : Bool
  created : Nat

/-- Substitution of positional arguments into a message template, modelling
a successful `msg % args` step of `LogRecord.getMessage`: each `%s` slot
consumes the next argument.  The `TypeError` raise path of a
template/argument mismatch is tracked by `interpArgsChecked`, used by the
totality results; on inputs where the checked interpolation succeeds the
two agree (`interpArgsChecked_agree`). -/
def interpArgs : List Char → List String → List Char
  | [], _ => []
  | '%' :: 's' :: cs, a :: rest => a.data ++ interpArgs cs rest
  | '%' :: 's' :: cs, [] => '%' :: 's' :: interpArgs cs []
  | c :: cs, rest => c :: interpArgs cs rest

/-- Model of `LogRecord.getMessage` restricted to successful renderings:
the raw message, with positional arguments substituted when any are
present.  The raise path of `msg % args` is tracked by
`Record.getMessageChecked`, used by the totality results. -/
def Record.getMessage (r : Record) : String :=
  if r.args.isEmpty then r.msg else ⟨interpArgs r.msg.data r.args⟩

/-- Model of `Formatter.formatMessage` under the default style `"%(message)s"`:
exactly the rendered message (line 104 sets `record.message =
record.getMessage()` and line 105 formats it through the default style). -/
def formatMessage (r : Record) : String :=
  r.getMessage

/-- Model of `Formatter.formatTime` (standard library): renders the record creation
time.  Modelled as the decimal rendering of the `created` field; the claims
do not depend on the concrete date format. -/
def formatTime (r : Record) : String :=
  toString r.created

/-- Model of `Formatter.formatException` (standard library): renders the traceback of
the exception; modelled by the `tb` field of the exception value. -/
def formatException (e : Err) : String :=
  e.tb

/-- Model of `Formatter.formatStack` (standard library): returns the stack text
verbatim. -/
def formatStack (s : String) : String :=
  s

/-- The `": ".join(...)` operation of Python strings. -/
def joinStr (sep : String) : List String → String
  | [] => ""
  | [x] => x
  | x :: y :: rest => x ++ sep ++ joinStr sep (y :: rest)

/-- Model of `_iter_causes` (lines 177-180): the `str()` renderings of the exception
followed by the renderings of its explicit causes, walking `__cause__` until
it is absent. -/
def iter_causes : Err → List String
  | .mk s _ _ none => [s]
  | .mk s _ _ (some c) => s :: iter_causes c

/-- Model of `ColorFormatter.color_codes` (lines 91-97): the color table keyed by
level name.  `none` models the `KeyError` a missing key raises at the
lookup `self.color_codes[level]` on line 134. -/
def color_codes (level : String) : Option String :=
  if level = "TRACE" then some GREEN
  else if level = "DEBUG" then some BLUE
  else if level = "WARNING" then some YELLOW
  else if level = "ERROR" then some RED
  else if level = "CRITICAL" then some RED
  else none

/-- Lines 110-116 of `ColorFormatter.format`: when the record carries an
exception, append the `": "`-joined cause chain (suppressed when the
`tb_only` flag is set) to the rendered message, separated by `" - "` when
both are non-empty. -/
def msgWithCause (r : Record) : String :=
  let msg := formatMessage r
  match r.exc_info with
  | none => msg
  | some e =>
    let cause := if r.tb_only then "" else joinStr (": ") (iter_causes e)
    let sep := if msg ≠ "" ∧ cause ≠ "" then " - " else ""
    msg ++ sep ++ cause

/-- Lines 118-130 of `ColorFormatter.format`: in verbose mode, compute the
timestamp and append exception text and stack text as newline-terminated
trailing blocks, each only when non-empty, each ensuring the preceding text
ends with a newline first (`msg[-1:] != "\n"`).  Returns the pair
(asctime, augmented message). -/
def verboseAugment (verbose : Bool) (r : Record) (msg : String) : String × String :=
  if verbose then
    let asctime := formatTime r
    let exc_text :=
      match r.exc_info with
      | some e => if r.exc_text = "" then formatException e else r.exc_text
      | none => r.exc_text
    let msg :=
      if exc_text ≠ "" then
        (if msg.endsWith ("\n") then msg else msg ++ "\n") ++ exc_text ++ "\n"
      else msg
    let msg :=
      if r.stack_info ≠ "" then
        (if msg.endsWith ("\n") then msg else msg ++ "\n") ++ formatStack r.stack_info ++ "\n"
      else msg
    (asctime, msg)
  else ("", msg)

/-- Lines 132-138 of `ColorFormatter.format`: color the timestamp and level
tag when colors are enabled (a level name outside the color table raises
`KeyError`, modelled as `none`), then assemble
`asctime + (" " if asctime else "") + level + ": " + msg`. -/
def assemble (log_colors : Bool) (r : Record) (asctime0 msg : String) : Option String :=
  let level0 := r.levelname
  let colored : Option (String × String) :=
    if log_colors then
      match color_codes level0 with
      | none => none
      | some color =>
        some (if asctime0 ≠ "" then color ++ asctime0 ++ RESET else asctime0,
              color ++ level0 ++ RESET)
    else some (asctime0, level0)
  match colored with
  | none => none
  | some (asctime, level) =>
    some (asctime ++ (if asctime ≠ "" then " " else "") ++ level ++ ": " ++ msg)

/-- Model of `ColorFormatter.format` (lines 103-138).  `log_colors` is the formatter
state set at construction; `verbose` is the value of `_is_verbose()` read on
line 119.  `none` models the `KeyError` raised by the color-table lookup;
every other path returns a string.  Records at level `INFO` return the
rendered message verbatim (lines 107-108). -/
def format (log_colors verbose : Bool) (r : Record) : Option String :=
  let msg := formatMessage r
  if r.levelno = INFO then some msg
  else
    let p := verboseAugment verbose r (msgWithCause r)
    assemble log_colors r p.1 p.2

/-- Model of the `%`-interpolation of `msg % args` (line 104) tracking the
`TypeError` raise paths of Python: a `%s` conversion with no remaining
argument raises, and leftover unconverted arguments raise at the end; both
are modelled as `none`. -/
def interpArgsChecked : List Char → List String → Option (List Char)
  | [], [] => some []
  | [], _ :: _ => none
  | '%' :: 's' :: cs, a :: rest => (interpArgsChecked cs rest).map (fun out => a.data ++ out)
  | '%' :: 's' :: _, [] => none
  | c :: cs, rest => (interpArgsChecked cs rest).map (fun out => c :: out)

/-- Model of `LogRecord.getMessage` tracking the `TypeError` raise path of
`msg % args` on a template/argument mismatch: the raw message when no
arguments are present, the interpolation outcome otherwise. -/
def Record.getMessageChecked (r : Record) : Option String :=
  if r.args.isEmpty then some r.msg
  else (interpArgsChecked r.msg.data r.args).map (fun cs => ⟨cs⟩)

/-- Outcome of the `": ".join(_iter_causes(ei[1]))` call of line 114
together with the raise behaviour of the external `__str__` calls it makes
on each node of the chain: `str_ok` records whether every such call
returns; a malformed error value whose `str()` raises makes the join raise,
modelled as `none`. -/
def joinCausesChecked (str_ok : Bool) (e : Err) : Option String :=
  if str_ok then some (joinStr (": ") (iter_causes e)) else none

/-- Lines 110-116 of `ColorFormatter.format` with the raise path of the
`str()` calls on line 114: the cause text is empty under the `tb_only` flag
(no `str()` call is made at all), raises when some `str()` call raises, and
otherwise joins the chain, separated from the message by `" - "` when both
are non-empty. -/
def msgWithCauseChecked (str_ok : Bool) (r : Record) (msg : String) : Option String :=
  match r.exc_info with
  | none => some msg
  | some e =>
    match (if r.tb_only then some "" else joinCausesChecked str_ok e) with
    | none => none
    | some cause =>
      let sep := if msg ≠ "" ∧ cause ≠ "" then " - " else ""
      some (msg ++ sep ++ cause)

/-- Model of `ColorFormatter.format` (lines 103-138) tracking every raise
path: message rendering (line 104, executed before the `INFO` early return)
raises on a template/argument mismatch; the cause-chain `str()` calls
(line 114, made only for a non-`INFO` record carrying an exception with
`tb_only` unset) may raise on a malformed error value; and the color-table
lookup (line 134) raises on an unknown level name when colors are enabled.
The remaining stages reuse `verboseAugment` and `assemble`, which have no
other raise path; when nothing raises this agrees with `format`
(`formatChecked_eq_format`). -/
def formatChecked (str_ok log_colors verbose : Bool) (r : Record) : Option String :=
  match r.getMessageChecked with
  | none => none
  | some msg0 =>
    if r.levelno = INFO then some msg0
    else
      match msgWithCauseChecked str_ok r msg0 with
      | none => none
      | some m1 =>
        let p := verboseAugment verbose r m1
        assemble log_colors r p.1 p.2

/-- Model of `_is_verbose` (lines 171-174) as a function of the effective level of
the "dvc" logger: `NOTSET < level <= DEBUG`. -/
def is_verbose (effectiveLevel : Nat) : Bool :=
  NOTSET < effectiveLevel && effectiveLevel ≤ DEBUG

/-- The two destination streams used by `setup`: `sys.stdout` and
`sys.stderr`. -/
inductive Sink where
  | stdout
  | stderr

/-- A `LoggerHandler` sink binding as configured by `setup`: destination
stream, handler level (`setLevel`), the threshold of the single
`exclude_filter` installed via `addFilter` when present, and the color flag
of the attached `ColorFormatter`. -/
structure LoggerHandler where
  stream : Sink
  level : Nat
  excludeBelow : Option Nat
  log_colors : Bool

/-- Model of `exclude_filter` (lines 71-75): the returned filter accepts a record
iff `record.levelno < level`. -/
def exclude_filter (level : Nat) (record : Record) : Bool :=
  record.levelno < level

/-- Whether a handler accepts a record: the standard-library dispatch
requires `handler.level <= record.levelno` (`Logger.callHandlers`) and that
every installed filter accepts the record (`Handler.filter` inside
`Handler.handle`). -/
def handlerAccepts (h : LoggerHandler) (r : Record) : Bool :=
  h.level ≤ r.levelno &&
    (match h.excludeBelow with
     | none => true
     | some l => exclude_filter l r)

/-- The `console_info` handler of `setup` (lines 201-204): stdout, level
`INFO`, filter excluding `WARNING` and above. -/
def console_info (fmt_colors : Bool) : LoggerHandler :=
  ⟨.stdout, INFO, some WARNING, fmt_colors⟩

/-- The `console_debug` handler of `setup` (lines 206-209): stdout, level
`DEBUG`, filter excluding `INFO` and above. -/
def console_debug (fmt_colors : Bool) : LoggerHandler :=
  ⟨.stdout, DEBUG, some INFO, fmt_colors⟩

/-- The `console_trace` handler of `setup` (lines 213-216): stdout, level
`TRACE`, filter excluding `DEBUG` and above. -/
def console_trace (fmt_colors : Bool) : LoggerHandler :=
  ⟨.stdout, TRACE, some DEBUG, fmt_colors⟩

/-- The `console_errors` handler of `setup` (lines 219-221): stderr, level
`WARNING`, no filter. -/
def console_errors (fmt_colors : Bool) : LoggerHandler :=
  ⟨.stderr, WARNING, none, fmt_colors⟩

/-- The four sink bindings `setup` attaches to each family logger
(line 226), in source order.  The stdout handlers share the formatter built
from the stdout color setting and the stderr handler uses the formatter
built from the stderr color setting (lines 199 and 218). -/
def setupHandlers (stdout_colors stderr_colors : Bool) : List LoggerHandler :=
  [console_info stdout_colors, console_debug stdout_colors,
   console_trace stdout_colors, console_errors stderr_colors]

/-- Exceptions distinguished by `LoggerHandler.emit`: `BrokenPipeError`,
`RecursionError`, and every other `Exception` (line 165 versus 167). -/
inductive PyExc where
  | brokenPipe
  | recursionError
  | other (name : String)

/-- Outcomes of the external calls made inside `LoggerHandler.emit` for one
record: the current `_is_verbose()` value, the outcome of the
`__pretty_exc__` delegate call, of `self.format(record)`, of `Tqdm.write`,
and of `self.flush()`.  Each `Except.error` models that call raising. -/
structure EmitEnv where
  verbose : Bool
  prettyResult : Except PyExc Unit
  fmtResult : Except PyExc String
  writeResult : Except PyExc Unit
  flushResult : Except PyExc Unit

/-- The observable outcome of `LoggerHandler.emit`: normal return (with the
text written through `Tqdm.write`, or `none` when the pretty-render path
returned early without writing), an exception propagated unchanged
(line 166), or the `LoggingException` raised by `handleError` (lines
142-144) which carries the original record. -/
inductive EmitOutcome where
  | ok (written : Option String)
  | raised (e : PyExc)
  | loggingException (record : Record)

/-- The message of `LoggingException` (lines 65-68): identifies the record
that could not be logged. -/
def loggingExceptionMsg (r : Record) : String :=
  "failed to log " ++ r.msg

/-- Dispatch of an exception escaping the format-write-flush sequence
(lines 165-168): `BrokenPipeError` and `RecursionError` re-raised
unchanged, anything else routed to `handleError`, which raises
`LoggingException(record)` (lines 142-144). -/
def dispatchOuter (e : PyExc) (r : Record) : EmitOutcome :=
  match e with
  | .brokenPipe => .raised .brokenPipe
  | .recursionError => .raised .recursionError
  | .other _ => .loggingException r

/-- The normal text path of `emit` (lines 162-168): format the record,
write it through `Tqdm.write`, flush, dispatching any exception through
the two `except` clauses. -/
def normalEmit (env : EmitEnv) (r : Record) : EmitOutcome :=
  match env.fmtResult with
  | .error e => dispatchOuter e r
  | .ok msg =>
    match env.writeResult with
    | .error e => dispatchOuter e r
    | .ok _ =>
      match env.flushResult with
      | .error e => dispatchOuter e r
      | .ok _ => .ok (some msg)

/-- Model of `LoggerHandler.emit` (lines 149-168).  When the record carries an
exception exposing `__pretty_exc__`, the delegate is tried first: on
success with verbosity off, emit returns without writing (line 158); a
delegate exception is swallowed by the inner handler (lines 159-160) and
control falls through to the normal path, as it does on success with
verbosity on. -/
def emit (env : EmitEnv) (r : Record) : EmitOutcome :=
  match r.exc_info with
  | some exc =>
    if exc.pretty then
      match env.prettyResult with
      | .ok _ => if env.verbose then normalEmit env r else .ok none
      | .error _ => normalEmit env r
    else normalEmit env r
  | none => normalEmit env r

/-- First-match association-list lookup, modelling a Python dict read
(later insertions are consed in front, so they shadow earlier ones). -/
def lookupKey {β : Type} (key : String) : List (String × β) → Option β
  | [] => none
  | (k, v) :: rest => if k = key then some v else lookupKey key rest

/-- The global state of the `logging` module touched by `addLoggingLevel`:
the integer level attributes on the module (read by `hasattr`/`getattr` on
lines 37-40, written by `setattr` on line 56 — the code asserts any
pre-existing attribute under a level name is an int, so only integer
attributes are tracked), the `_nameToLevel` and `_levelToName` tables
behind `getLevelName`/`addLevelName` (lines 52-53), the method names
present on the logger class (line 58), and the module-level convenience
function names (line 61). -/
structure LoggingModule where
  attrs : List (String × Nat)
  nameToLevel : List (String × Nat)
  levelToName : List (Nat × String)
  loggerMethods : List String
  moduleFns : List String

/-- Model of `logging.addLevelName(levelNum, levelName)` (standard library): records
the mapping in both directions, shadowing earlier entries. -/
def addLevelName (st : LoggingModule) (levelNum : Nat) (levelName : String) : LoggingModule :=
  { st with nameToLevel := (levelName, levelNum) :: st.nameToLevel,
            levelToName := (levelNum, levelName) :: st.levelToName }

/-- Lines 52-53 of `addLoggingLevel`: call `addLevelName` only when
`getLevelName(levelName)` does not already resolve to an int, i.e. when the
name is absent from `_nameToLevel`. -/
def registerLevelName (st : LoggingModule) (levelName : String) (levelNum : Nat) : LoggingModule :=
  if (lookupKey levelName st.nameToLevel).isSome then st
  else addLevelName st levelNum levelName

/-- Lines 55-56 of `addLoggingLevel`: `setattr(logging, levelName,
levelNum)` only when the module attribute is absent. -/
def registerModuleAttr (st : LoggingModule) (levelName : String) (levelNum : Nat) : LoggingModule :=
  if (lookupKey levelName st.attrs).isSome then st
  else { st with attrs := (levelName, levelNum) :: st.attrs }

/-- Lines 58-59 of `addLoggingLevel`: attach the per-record method to the
logger class only when absent. -/
def registerLoggerMethod (st : LoggingModule) (methodName : String) : LoggingModule :=
  if methodName ∈ st.loggerMethods then st
  else { st with loggerMethods := methodName :: st.loggerMethods }

/-- Lines 61-62 of `addLoggingLevel`: attach the module-level convenience
function only when absent. -/
def registerModuleFn (st : LoggingModule) (methodName : String) : LoggingModule :=
  if methodName ∈ st.moduleFns then st
  else { st with moduleFns := methodName :: st.moduleFns }

/-- Model of `addLoggingLevel(levelName, levelNum, methodName)` (lines 23-62).
The method name defaults to the lowercased level name (lines 32-33); if the
module already has an attribute under `levelName` its numeric value is
adopted and the requested one discarded (lines 37-40); then the four
conditional registrations of lines 52-62 run in source order. -/
def addLoggingLevel (st : LoggingModule) (levelName : String) (levelNum0 : Nat)
    (methodName0 : Option String) : LoggingModule :=
  let methodName :=
    match methodName0 with
    | none => levelName.toLower
    | some m => m
  let levelNum :=
    match lookupKey levelName st.attrs with
    | some existing => existing
    | none => levelNum0
  registerModuleFn
    (registerLoggerMethod
      (registerModuleAttr (registerLevelName st levelName levelNum) levelName levelNum)
      methodName)
    methodName

/-- The process-wide logger registry touched by `setup`,
`set_loggers_level` and `disable_other_loggers`: the registered logger
names (`logging.root.manager.loggerDict`), each logger's explicitly set
level, the set of loggers whose `disabled` flag is set, the handlers
attached to each logger, and the `captureWarnings` flag. -/
structure Registry where
  loggerDict : List String
  levels : List (String × Nat)
  disabledNames : List String
  handlers : List (String × LoggerHandler)
  warningsCaptured : Bool

/-- Model of `logging.getLogger(name)` (standard library): registers the name when
it is not yet registered. -/
def getLoggerReg (st : Registry) (name : String) : Registry :=
  if name ∈ st.loggerDict then st else { st with loggerDict := name :: st.loggerDict }

/-- Model of `logging.getLogger(name).setLevel(level)`: registers the logger and
records its level. -/
def setLoggerLevel (st : Registry) (name : String) (level : Nat) : Registry :=
  let st := getLoggerReg st name
  { st with levels := (name, level) :: st.levels }

/-- Model of `set_loggers_level` (lines 191-193): applies the level to the three
family logger namespaces. -/
def set_loggers_level (st : Registry) (level : Nat) : Registry :=
  (["dvc", "dvc_objects", "dvc_data"]).foldl (fun s n => setLoggerLevel s n level) st

/-- Whether a logger has its `disabled` flag set. -/
def isDisabled (st : Registry) (name : String) : Prop :=
  name ∈ st.disabledNames

/-- Character-list prefix test used to model `str.startswith`. -/
def startsWithChars : List Char → List Char → Bool
  | [], _ => true
  | _ :: _, [] => false
  | c :: cs, d :: ds => if c = d then startsWithChars cs ds else false

/-- The Python `s.startswith(pre)` test on strings. -/
def strStartsWith (s pre : String) : Bool :=
  startsWithChars pre.data s.data

/-- Model of `disable_other_loggers` (lines 183-188): enables warning capture, then
sets the `disabled` flag on every registered logger whose name is neither
exactly "dvc" nor starts with "dvc.", leaving the flag of every other
logger as it was. -/
def disable_other_loggers (st : Registry) : Registry :=
  { st with warningsCaptured := true,
            disabledNames :=
              st.loggerDict.filter
                (fun n => !(n == "dvc") && !(strStartsWith n ("dvc."))) ++
              st.disabledNames }

/-- Model of `setup(level, log_colors)` (lines 196-238) acting on the logging-module
state and the logger registry.  `stdout_tty` and `stderr_tty` model
`sys.stdout.isatty()` and `sys.stderr.isatty()`; `colorama.init()` is an
external side effect with no model state.  For each family logger the level
is set and the four handlers attached; finally, when `level >= DEBUG`, the
"asyncio" and "aiohttp" loggers are forced to `CRITICAL` (lines 229-238). -/
def setup (lm : LoggingModule) (st : Registry) (level : Nat) (log_colors : Bool)
    (stdout_tty stderr_tty : Bool) : LoggingModule × Registry :=
  let stdout_colors := log_colors && stdout_tty
  let stderr_colors := log_colors && stderr_tty
  let lm := addLoggingLevel lm ("TRACE") (DEBUG - 5) none
  let hs := setupHandlers stdout_colors stderr_colors
  let st :=
    (["dvc", "dvc_objects", "dvc_data"]).foldl
      (fun s name =>
        let s := setLoggerLevel s name level
        hs.foldl (fun s2 h => { s2 with handlers := (name, h) :: s2.handlers }) s)
      st
  let st :=
    if DEBUG ≤ level then
      setLoggerLevel (setLoggerLevel st ("asyncio") CRITICAL) ("aiohttp") CRITICAL
    else st
  (lm, st)

/-- The level attribute table of the standard `logging` module before any
registration by this code. -/
def initialLoggingModule : LoggingModule :=
  { attrs := [("CRITICAL", 50), ("FATAL", 50), ("ERROR", 40), ("WARNING", 30),
              ("WARN", 30), ("INFO", 20), ("DEBUG", 10), ("NOTSET", 0)],
    nameToLevel := [("CRITICAL", 50), ("FATAL", 50), ("ERROR", 40), ("WARNING", 30),
                    ("WARN", 30), ("INFO", 20), ("DEBUG", 10), ("NOTSET", 0)],
    levelToName := [(50, "CRITICAL"), (40, "ERROR"), (30, "WARNING"),
                    (20, "INFO"), (10, "DEBUG"), (0, "NOTSET")],
    loggerMethods := ["debug", "info", "warning", "error", "exception", "critical", "log"],
    moduleFns := ["debug", "info", "warning", "error", "exception", "critical", "log"] }

/-- An empty logger registry, as at interpreter start. -/
def emptyRegistry : Registry :=
  { loggerDict := [], levels := [], disabledNames := [], handlers := [],
    warningsCaptured := false }

/-- A concrete `WARNING` record. -/
def warnRec : Record :=
  ⟨"dvc", WARNING, "WARNING", "disk low", [], none, "", "", false, 0⟩

/-- A concrete `DEBUG` record. -/
def debugRec : Record :=
  ⟨"dvc", DEBUG, "DEBUG", "starting", [], none, "", "", false, 0⟩

/-- A concrete three-element cause chain: A caused by B caused by C. -/
def chainErr : Err :=
  .mk "A" "TB" false (some (.mk "B" "" false (some (.mk "C" "" false none))))

/-- A concrete `INFO` record with arguments and an attached exception. -/
def infoRec : Record :=
  ⟨"dvc", INFO, "INFO", "hello %s", ["world"], some chainErr, "", "", false, 7⟩

/-- A concrete `ERROR` record carrying the three-element cause chain. -/
def errRec : Record :=
  ⟨"dvc", ERROR, "ERROR", "boom", [], some chainErr, "", "", false, 3⟩

/-- The same record with the `tb_only` flag set. -/
def errRecTbOnly : Record :=
  ⟨"dvc", ERROR, "ERROR", "boom", [], some chainErr, "", "", true, 3⟩

/-- A non-`INFO` record whose level name is outside the color table. -/
def unknownLevelRec : Record :=
  ⟨"dvc", 25, "Level 25", "hi", [], none, "", "", false, 0⟩

/-- A record whose message template has more `%s` slots than arguments, so
`msg % args` raises `TypeError`. -/
def mismatchRec : Record :=
  ⟨"dvc", INFO, "INFO", "%s and %s", ["a"], none, "", "", false, 0⟩

/-- A record without exception data. -/
def plainRec : Record :=
  ⟨"dvc", WARNING, "WARNING", "w", [], none, "", "", false, 0⟩

/-- A record carrying an exception that exposes `__pretty_exc__`. -/
def prettyRec : Record :=
  ⟨"dvc", ERROR, "ERROR", "x", [], some (.mk "E" "" true none), "", "", false, 0⟩

/-- An emit environment whose format call raises `BrokenPipeError`. -/
def brokenPipeEnv : EmitEnv :=
  ⟨false, .ok (), .error .brokenPipe, .ok (), .ok ()⟩

/-- An emit environment whose write call raises a generic exception. -/
def failWriteEnv : EmitEnv :=
  ⟨false, .ok (), .ok "text", .error (.other "OSError"), .ok ()⟩

/-- An emit environment where every external call succeeds, with verbosity
off. -/
def quietEnv : EmitEnv :=
  ⟨false, .ok (), .ok "text", .ok (), .ok ()⟩

/-- An emit environment where the pretty-render delegate raises, with
verbosity off. -/
def prettyFailEnv : EmitEnv :=
  ⟨false, .error (.other "ValueError"), .ok "text", .ok (), .ok ()⟩


/-- Claim C1: after setup, a WARNING record is accepted by none of the three
standard-output sink bindings and always by the standard-error binding, a
DEBUG record is never accepted by the standard-error binding, acceptance is
exactly the rule minLevel <= level and (maxLevel absent or level < maxLevel),
and the four bindings built by setup are (stdout, INFO..<WARNING),
(stdout, DEBUG..<INFO), (stdout, TRACE..<DEBUG) and (stderr, WARNING..). -/
theorem c1_routing :
    (∀ (c : Bool) (r : Record), r.levelno = WARNING →
      handlerAccepts (console_info c) r = false ∧
      handlerAccepts (console_debug c) r = false ∧
      handlerAccepts (console_trace c) r = false ∧
      handlerAccepts (console_errors c) r = true) ∧
    (∀ (c : Bool) (r : Record), r.levelno = DEBUG →
      handlerAccepts (console_errors c) r = false) ∧
    (∀ (h : LoggerHandler) (r : Record),
      handlerAccepts h r = true ↔
        (h.level ≤ r.levelno ∧ ∀ m, h.excludeBelow = some m → r.levelno < m)) ∧
    (∀ ci ce : Bool, setupHandlers ci ce =
      [⟨.stdout, INFO, some WARNING, ci⟩, ⟨.stdout, DEBUG, some INFO, ci⟩,
       ⟨.stdout, TRACE, some DEBUG, ci⟩, ⟨.stderr, WARNING, none, ce⟩]) := by
  refine ⟨?_, ?_, ?_, ?_⟩
  · intro c r hr
    refine ⟨?_, ?_, ?_, ?_⟩ <;>
      simp [handlerAccepts, console_info, console_debug, console_trace, console_errors,
            exclude_filter, hr, INFO, WARNING, DEBUG, TRACE]
  · intro c r hr
    simp [handlerAccepts, console_errors, hr, WARNING, DEBUG]
  · intro h r
    cases hm : h.excludeBelow with
    | none => simp [handlerAccepts, hm]
    | some l => simp [handlerAccepts, hm, exclude_filter]
  · intro ci ce
    rfl

/-- Witness for C1 at concrete WARNING and DEBUG records. -/
theorem c1_routing_witness :
    handlerAccepts (console_errors true) warnRec = true ∧
    handlerAccepts (console_info true) warnRec = false ∧
    handlerAccepts (console_errors true) debugRec = false :=
  ⟨(c1_routing.1 true warnRec rfl).2.2.2, (c1_routing.1 true warnRec rfl).1,
   c1_routing.2.1 true debugRec rfl⟩

/-- Claim C2: a record at level INFO is formatted as exactly the rendered
message, for every color and verbosity setting and any attached error. -/
theorem c2_info_plain :
    ∀ (log_colors verbose : Bool) (r : Record), r.levelno = INFO →
      format log_colors verbose r = some (formatMessage r) := by
  intro c v r hr
  simp [format, hr]

/-- Witness for C2: a concrete INFO record with arguments and an attached
cause chain renders as the plain interpolated message. -/
theorem c2_info_plain_witness : format true true infoRec = some ("hello world") := by
  rw [c2_info_plain true true infoRec rfl]
  rfl
/-- Counterexample to claim C5: with colors enabled, a non-INFO record whose
level name is outside the color table makes the lookup
self.color_codes[level] raise KeyError, so format fails to return a
string. -/
theorem c5_counterexample : (format true false unknownLevelRec).isSome = false := by rfl

/-- A successful checked interpolation agrees with the total rendering used
by the structural results. -/
theorem interpArgsChecked_agree :
    ∀ (cs : List Char) (rest : List String) (out : List Char),
      interpArgsChecked cs rest = some out → interpArgs cs rest = out := by
  intro cs rest
  induction cs, rest using interpArgsChecked.induct with
  | case1 =>
    intro out h
    simp only [interpArgsChecked] at h
    exact Option.some.inj h
  | case2 a rest =>
    intro out h
    simp [interpArgsChecked] at h
  | case3 cs a rest ih =>
    intro out h
    simp only [interpArgsChecked] at h
    obtain ⟨out1, h1, rfl⟩ := Option.map_eq_some'.mp h
    simp [interpArgs, ih out1 h1]
  | case4 cs =>
    intro out h
    simp [interpArgsChecked] at h
  | case5 c cs rest h1 h2 ih =>
    intro out h
    simp only [interpArgsChecked] at h
    obtain ⟨out1, hx, rfl⟩ := Option.map_eq_some'.mp h
    simp [interpArgs, ih out1 hx]

/-- A successful checked rendering agrees with the total rendered message
used by the structural results. -/
theorem getMessageChecked_agree (r : Record) (m : String)
    (h : r.getMessageChecked = some m) : formatMessage r = m := by
  unfold Record.getMessageChecked at h
  by_cases ha : r.args.isEmpty
  · rw [if_pos ha] at h
    simp [formatMessage, Record.getMessage, ha, Option.some.inj h]
  · rw [if_neg ha] at h
    obtain ⟨cs, hcs, hm⟩ := Option.map_eq_some'.mp h
    subst hm
    simp [formatMessage, Record.getMessage, ha, interpArgsChecked_agree _ _ _ hcs]

/-- The cause step of the checked pipeline returns a string whenever the
`str()` calls succeed or are not made at all. -/
theorem msgWithCauseChecked_isSome (str_ok : Bool) (r : Record) (msg : String)
    (h : str_ok = true ∨ r.exc_info = none ∨ r.tb_only = true) :
    (msgWithCauseChecked str_ok r msg).isSome = true := by
  cases he : r.exc_info with
  | none => simp [msgWithCauseChecked, he]
  | some e =>
    rcases h with hs | hn | htb
    · subst hs
      by_cases htb : r.tb_only <;>
        simp [msgWithCauseChecked, he, htb, joinCausesChecked]
    · rw [he] at hn
      exact absurd hn (by simp)
    · simp [msgWithCauseChecked, he, htb]

/-- On records where no raise path fires, the checked format agrees with
the collapsed `format` used by the structural results. -/
theorem formatChecked_eq_format (log_colors verbose : Bool) (r : Record)
    (h : (r.getMessageChecked).isSome = true) :
    formatChecked true log_colors verbose r = format log_colors verbose r := by
  obtain ⟨m0, hm0⟩ := Option.isSome_iff_exists.mp h
  have hm : formatMessage r = m0 := getMessageChecked_agree r m0 hm0
  by_cases hl : r.levelno = INFO
  · simp [formatChecked, format, hm0, hl, hm]
  · have hmc : msgWithCauseChecked true r m0 = some (msgWithCause r) := by
      unfold msgWithCauseChecked msgWithCause
      cases he : r.exc_info with
      | none => simp [he, hm]
      | some e =>
        by_cases htb : r.tb_only <;>
          simp [he, htb, joinCausesChecked, hm]
    simp [formatChecked, format, hm0, hl, hmc]

/-- Claim C5 as amended: format returns a string for every record whose
message rendering succeeds and whose cause-chain `str()` calls (made only
when a non-INFO record carries an error with the traceback-only flag unset)
succeed, provided colors are disabled, or the record is at level INFO, or
its level name is in the color table; each raise path propagates — a
template/argument mismatch in `msg % args`, a raising `str()` on a
malformed error value, and the color lookup on an unknown level name with
colors enabled. -/
theorem c5_total_amended :
    ∀ (str_ok log_colors verbose : Bool) (r : Record),
      ((r.getMessageChecked).isSome = true →
        (str_ok = true ∨ r.exc_info = none ∨ r.tb_only = true) →
        (formatChecked str_ok false verbose r).isSome = true) ∧
      ((r.getMessageChecked).isSome = true → r.levelno = INFO →
        (formatChecked str_ok log_colors verbose r).isSome = true) ∧
      ((r.getMessageChecked).isSome = true →
        (str_ok = true ∨ r.exc_info = none ∨ r.tb_only = true) →
        (color_codes r.levelname).isSome = true →
        (formatChecked str_ok true verbose r).isSome = true) ∧
      (r.getMessageChecked = none → formatChecked str_ok log_colors verbose r = none) ∧
      (∀ e, (r.getMessageChecked).isSome = true → r.exc_info = some e →
        r.levelno ≠ INFO → r.tb_only = false → str_ok = false →
        formatChecked str_ok log_colors verbose r = none) := by
  intro s c v r
  refine ⟨?_, ?_, ?_, ?_, ?_⟩
  · intro hm hstr
    obtain ⟨m0, hm0⟩ := Option.isSome_iff_exists.mp hm
    by_cases hl : r.levelno = INFO
    · simp [formatChecked, hm0, hl]
    · obtain ⟨m1, hm1⟩ :=
        Option.isSome_iff_exists.mp (msgWithCauseChecked_isSome s r m0 hstr)
      simp [formatChecked, hm0, hl, hm1, assemble]
  · intro hm hl
    obtain ⟨m0, hm0⟩ := Option.isSome_iff_exists.mp hm
    simp [formatChecked, hm0, hl]
  · intro hm hstr hc
    obtain ⟨m0, hm0⟩ := Option.isSome_iff_exists.mp hm
    by_cases hl : r.levelno = INFO
    · simp [formatChecked, hm0, hl]
    · obtain ⟨m1, hm1⟩ :=
        Option.isSome_iff_exists.mp (msgWithCauseChecked_isSome s r m0 hstr)
      obtain ⟨code, hcode⟩ := Option.isSome_iff_exists.mp hc
      simp [formatChecked, hm0, hl, hm1, assemble, hcode]
  · intro hnone
    simp [formatChecked, hnone]
  · intro e hm he hl htb hs
    obtain ⟨m0, hm0⟩ := Option.isSome_iff_exists.mp hm
    subst hs
    simp [formatChecked, hm0, hl, msgWithCauseChecked, he, htb, joinCausesChecked]

/-- Witness for C5 as amended: a record with colors off, a known level name
with colors on, a template/argument mismatch, and a malformed error value
whose `str()` raises. -/
theorem c5_total_amended_witness :
    (formatChecked true false true errRec).isSome = true ∧
    (formatChecked true true false plainRec).isSome = true ∧
    formatChecked true true false mismatchRec = none ∧
    formatChecked false false false errRec = none := by
  refine ⟨?_, ?_, ?_, ?_⟩
  · exact (c5_total_amended true false true errRec).1 (by rfl) (Or.inl rfl)
  · exact (c5_total_amended true true false plainRec).2.2.1 (by rfl)
      (Or.inr (Or.inl rfl)) (by rfl)
  · exact (c5_total_amended true true false mismatchRec).2.2.2.1 (by rfl)
  · exact (c5_total_amended false false false errRec).2.2.2.2 chainErr (by rfl) rfl
      (by decide) rfl rfl
/-- Claim C6: for a record carrying an error, the cause text appended to the
message is the ": "-join of the str renderings along the explicit cause
relation (a chain A caused-by B caused-by C gives "A: B: C") when the
traceback-only flag is unset, and the message is left without any cause
text when the flag is set; for non-INFO records this message feeds the rest
of the formatting pipeline unchanged. -/
theorem c6_cause_chain :
    ∀ (log_colors verbose : Bool) (r : Record) (e : Err), r.exc_info = some e →
      (r.tb_only = true → msgWithCause r = formatMessage r) ∧
      (r.tb_only = false →
        msgWithCause r =
          formatMessage r ++
            (if formatMessage r ≠ "" ∧ joinStr (": ") (iter_causes e) ≠ "" then " - " else "") ++
            joinStr (": ") (iter_causes e)) ∧
      (∀ (a b c ta tb2 tc : String) (pa pb pc : Bool),
        joinStr (": ")
            (iter_causes (.mk a ta pa (some (.mk b tb2 pb (some (.mk c tc pc none)))))) =
          a ++ ": " ++ b ++ ": " ++ c) ∧
      (r.levelno ≠ INFO →
        format log_colors verbose r =
          assemble log_colors r (verboseAugment verbose r (msgWithCause r)).1
            (verboseAugment verbose r (msgWithCause r)).2) := by
  intro col v r e he
  refine ⟨?_, ?_, ?_, ?_⟩
  · intro htb
    simp [msgWithCause, he, htb]
  · intro htb
    simp [msgWithCause, he, htb, String.append_assoc]
  · intro a b c ta tb2 tc pa pb pc
    simp [iter_causes, joinStr, String.append_assoc]
  · intro hl
    simp [format, hl]

/-- Witness for C6: the concrete chain A caused-by B caused-by C attached
to the record "boom" renders as "boom - A: B: C", and with the
traceback-only flag set the cause text disappears. -/
theorem c6_cause_chain_witness :
    msgWithCause errRec = "boom - A: B: C" ∧ msgWithCause errRecTbOnly = "boom" := by
  have h1 := c6_cause_chain false false errRec chainErr rfl
  have h2 := c6_cause_chain false false errRecTbOnly chainErr rfl
  refine ⟨?_, ?_⟩
  · rw [h1.2.1 rfl]
    rfl
  · rw [h2.1 rfl]
    rfl

/-- Counterexample to claim C8: at the unset effective level (NOTSET, zero)
the verbosity predicate is false although the level is at or below DEBUG,
so the claimed biconditional fails there. -/
theorem c8_counterexample : is_verbose NOTSET = false ∧ NOTSET ≤ DEBUG := by
  exact ⟨rfl, by decide⟩

/-- Claim C8 as amended: the verbosity predicate is true iff the effective
level of the application root logger is strictly above NOTSET and at or
below DEBUG. -/
theorem c8_verbose_amended :
    ∀ (effectiveLevel : Nat),
      is_verbose effectiveLevel = true ↔ (NOTSET < effectiveLevel ∧ effectiveLevel ≤ DEBUG) := by
  intro l
  simp [is_verbose]

/-- Witness for C8 as amended at the concrete levels TRACE and DEBUG. -/
theorem c8_verbose_amended_witness : is_verbose TRACE = true ∧ is_verbose DEBUG = true :=
  ⟨(c8_verbose_amended TRACE).mpr (by decide), (c8_verbose_amended DEBUG).mpr (by decide)⟩
/-- The normal format-write-flush path never returns the marker of the
pretty-render early return. -/
theorem normalEmit_ne_ok_none (env : EmitEnv) (r : Record) :
    normalEmit env r ≠ EmitOutcome.ok none := by
  cases hf : env.fmtResult with
  | error e => cases e <;> simp [normalEmit, hf, dispatchOuter]
  | ok m =>
    cases hw : env.writeResult with
    | error e => cases e <;> simp [normalEmit, hf, hw, dispatchOuter]
    | ok u =>
      cases hfl : env.flushResult with
      | error e => cases e <;> simp [normalEmit, hf, hw, hfl, dispatchOuter]
      | ok w => simp [normalEmit, hf, hw, hfl]

/-- Claim C3: when the normal path runs, a BrokenPipeError or RecursionError
from formatting, writing or flushing propagates unchanged out of emit, and
any other exception makes emit raise the LoggingException carrying the
original record. -/
theorem c3_emit_errors :
    ∀ (env : EmitEnv) (r : Record) (e : PyExc),
      (∀ exc, r.exc_info = some exc → exc.pretty = true →
        env.prettyResult = Except.ok () → env.verbose = true) →
      (env.fmtResult = Except.error e ∨
        ((∃ m, env.fmtResult = Except.ok m) ∧ env.writeResult = Except.error e) ∨
        ((∃ m, env.fmtResult = Except.ok m) ∧ env.writeResult = Except.ok () ∧
          env.flushResult = Except.error e)) →
      ((e = PyExc.brokenPipe ∨ e = PyExc.recursionError) →
        emit env r = EmitOutcome.raised e) ∧
      (∀ s, e = PyExc.other s → emit env r = EmitOutcome.loggingException r) := by
  intro env r e hpretty hfail
  have hnorm : emit env r = normalEmit env r := by
    cases hei : r.exc_info with
    | none => simp [emit, hei]
    | some exc =>
      by_cases hp : exc.pretty
      · cases hpr : env.prettyResult with
        | ok u =>
          cases u
          have hv := hpretty exc hei hp hpr
          simp [emit, hei, hp, hpr, hv]
        | error err => simp [emit, hei, hp, hpr]
      · simp [emit, hei, hp]
  have hne : normalEmit env r = dispatchOuter e r := by
    rcases hfail with hf | ⟨⟨m, hm⟩, hw⟩ | ⟨⟨m, hm⟩, hw, hfl⟩
    · simp [normalEmit, hf]
    · simp [normalEmit, hm, hw]
    · simp [normalEmit, hm, hw, hfl]
  constructor
  · intro hcase
    rcases hcase with hcb | hcr
    · subst hcb
      rw [hnorm, hne]
      rfl
    · subst hcr
      rw [hnorm, hne]
      rfl
  · intro s hs
    subst hs
    rw [hnorm, hne]
    rfl

/-- Witness for C3: a broken pipe during formatting propagates, and a
generic write failure surfaces as the LoggingException carrying the
record. -/
theorem c3_emit_errors_witness :
    emit brokenPipeEnv plainRec = EmitOutcome.raised PyExc.brokenPipe ∧
    emit failWriteEnv plainRec = EmitOutcome.loggingException plainRec := by
  have h1 := c3_emit_errors brokenPipeEnv plainRec PyExc.brokenPipe
    (fun exc hexc => Option.noConfusion hexc) (Or.inl rfl)
  have h2 := c3_emit_errors failWriteEnv plainRec (PyExc.other "OSError")
    (fun exc hexc => Option.noConfusion hexc)
    (Or.inr (Or.inl ⟨⟨"text", rfl⟩, rfl⟩))
  exact ⟨h1.1 (Or.inl rfl), h2.2 "OSError" rfl⟩
/-- Claim C4: for a record whose error value exposes the pretty-render
capability, emit skips the normal format-and-write path exactly when the
delegate call succeeds and the process is not verbose; if the delegate
raises, or the process is verbose, emit falls through to the normal path,
and a delegate failure is never propagated. -/
theorem c4_pretty_delegation :
    ∀ (env : EmitEnv) (r : Record) (exc : Err),
      r.exc_info = some exc → exc.pretty = true →
      ((emit env r = EmitOutcome.ok none) ↔
        (env.prettyResult = Except.ok () ∧ env.verbose = false)) ∧
      ((env.verbose = true ∨ ∃ err, env.prettyResult = Except.error err) →
        emit env r = normalEmit env r) ∧
      (∀ err, env.prettyResult = Except.error err → emit env r = normalEmit env r) := by
  intro env r exc hei hp
  refine ⟨⟨?_, ?_⟩, ?_, ?_⟩
  · intro hok
    cases hpr : env.prettyResult with
    | ok u =>
      cases u
      by_cases hv : env.verbose = true
      · rw [show emit env r = normalEmit env r by simp [emit, hei, hp, hpr, hv]] at hok
        exact absurd hok (normalEmit_ne_ok_none env r)
      · exact ⟨rfl, by simpa using hv⟩
    | error err =>
      rw [show emit env r = normalEmit env r by simp [emit, hei, hp, hpr]] at hok
      exact absurd hok (normalEmit_ne_ok_none env r)
  · rintro ⟨hpr, hv⟩
    simp [emit, hei, hp, hpr, hv]
  · intro hcase
    rcases hcase with hv | ⟨err, hpr⟩
    · cases hpr : env.prettyResult with
      | ok u =>
        cases u
        simp [emit, hei, hp, hpr, hv]
      | error err => simp [emit, hei, hp, hpr]
    · simp [emit, hei, hp, hpr]
  · intro err hpr
    simp [emit, hei, hp, hpr]

/-- Witness for C4: with the delegate succeeding and verbosity off the
record is fully handled without writing; with the delegate raising, emit
behaves exactly as the normal path and writes the formatted text. -/
theorem c4_pretty_delegation_witness :
    emit quietEnv prettyRec = EmitOutcome.ok none ∧
    emit prettyFailEnv prettyRec = normalEmit prettyFailEnv prettyRec := by
  have h1 := c4_pretty_delegation quietEnv prettyRec (.mk "E" "" true none) rfl rfl
  have h2 := c4_pretty_delegation prettyFailEnv prettyRec (.mk "E" "" true none) rfl rfl
  exact ⟨h1.1.mpr ⟨rfl, rfl⟩, h2.2.2 (PyExc.other "ValueError") rfl⟩
/-- Step `registerLevelName` never changes the module attribute table. -/
theorem registerLevelName_attrs (st : LoggingModule) (n : String) (v : Nat) :
    (registerLevelName st n v).attrs = st.attrs := by
  unfold registerLevelName
  split <;> rfl

/-- After `registerLevelName`, the name resolves to its previous value when
one existed and to the requested value otherwise. -/
theorem registerLevelName_nameToLevel (st : LoggingModule) (n : String) (v : Nat) :
    lookupKey n (registerLevelName st n v).nameToLevel =
      some ((lookupKey n st.nameToLevel).getD v) := by
  unfold registerLevelName
  cases h : lookupKey n st.nameToLevel with
  | none => simp [h, addLevelName, lookupKey]
  | some w => simp [h]

/-- Step `registerModuleAttr` leaves the name-to-level table unchanged. -/
theorem registerModuleAttr_nameToLevel (st : LoggingModule) (n : String) (v : Nat) :
    (registerModuleAttr st n v).nameToLevel = st.nameToLevel := by
  unfold registerModuleAttr
  split <;> rfl

/-- After `registerModuleAttr`, the module attribute holds its previous
value when one existed and the requested value otherwise. -/
theorem registerModuleAttr_attrs (st : LoggingModule) (n : String) (v : Nat) :
    lookupKey n (registerModuleAttr st n v).attrs =
      some ((lookupKey n st.attrs).getD v) := by
  unfold registerModuleAttr
  cases h : lookupKey n st.attrs with
  | none => simp [h, lookupKey]
  | some w => simp [h]

/-- The method registrations touch neither level table. -/
theorem registerMethods_tables (st : LoggingModule) (m1 m2 : String) :
    (registerModuleFn (registerLoggerMethod st m1) m2).attrs = st.attrs ∧
    (registerModuleFn (registerLoggerMethod st m1) m2).nameToLevel = st.nameToLevel := by
  unfold registerModuleFn registerLoggerMethod
  constructor <;> (split <;> split <;> rfl)

/-- The module attribute under the registered name after `addLoggingLevel`:
the pre-existing value wins, otherwise the requested one is stored. -/
theorem addLoggingLevel_attrs (st : LoggingModule) (n : String) (v : Nat) (m : Option String) :
    lookupKey n (addLoggingLevel st n v m).attrs =
      some ((lookupKey n st.attrs).getD v) := by
  unfold addLoggingLevel
  cases h : lookupKey n st.attrs with
  | none =>
    simp [h, (registerMethods_tables _ _ _).1, registerModuleAttr_attrs,
          registerLevelName_attrs, lookupKey]
  | some w =>
    simp [h, (registerMethods_tables _ _ _).1, registerModuleAttr_attrs,
          registerLevelName_attrs, lookupKey]

/-- The name-to-level entry under the registered name after
`addLoggingLevel`. -/
theorem addLoggingLevel_nameToLevel (st : LoggingModule) (n : String) (v : Nat) (m : Option String) :
    lookupKey n (addLoggingLevel st n v m).nameToLevel =
      some ((lookupKey n st.nameToLevel).getD ((lookupKey n st.attrs).getD v)) := by
  unfold addLoggingLevel
  cases h : lookupKey n st.attrs with
  | none =>
    simp [h, (registerMethods_tables _ _ _).2, registerModuleAttr_nameToLevel,
          registerLevelName_nameToLevel]
  | some w =>
    simp [h, (registerMethods_tables _ _ _).2, registerModuleAttr_nameToLevel,
          registerLevelName_nameToLevel]

/-- Claim C7: registration is idempotent per name — a pre-existing numeric
value under the name is adopted and the requested value discarded, the name
is always bound after a registration, and a second registration with any
value changes neither the module attribute nor the name-to-level entry. -/
theorem c7_idempotent_registration :
    ∀ (st : LoggingModule) (name : String) (v1 v2 : Nat) (m1 m2 : Option String),
      (∀ v, lookupKey name st.attrs = some v →
        lookupKey name (addLoggingLevel st name v1 m1).attrs = some v) ∧
      (lookupKey name (addLoggingLevel st name v1 m1).attrs).isSome = true ∧
      lookupKey name (addLoggingLevel (addLoggingLevel st name v1 m1) name v2 m2).attrs =
        lookupKey name (addLoggingLevel st name v1 m1).attrs ∧
      lookupKey name (addLoggingLevel (addLoggingLevel st name v1 m1) name v2 m2).nameToLevel =
        lookupKey name (addLoggingLevel st name v1 m1).nameToLevel := by
  intro st name v1 v2 m1 m2
  refine ⟨?_, ?_, ?_, ?_⟩
  · intro v hv
    rw [addLoggingLevel_attrs, hv]
    rfl
  · rw [addLoggingLevel_attrs]
    rfl
  · rw [addLoggingLevel_attrs, addLoggingLevel_attrs]
    rfl
  · rw [addLoggingLevel_nameToLevel, addLoggingLevel_nameToLevel, addLoggingLevel_attrs]
    rfl

/-- Witness for C7: registering TRACE at 5 and then again at 99 leaves both
tables at 5, and registering CRITICAL at 99 keeps the existing 50. -/
theorem c7_idempotent_registration_witness :
    lookupKey ("TRACE")
        (addLoggingLevel (addLoggingLevel initialLoggingModule ("TRACE") 5 none)
          ("TRACE") 99 none).attrs = some 5 ∧
    lookupKey ("CRITICAL")
        (addLoggingLevel initialLoggingModule ("CRITICAL") 99 none).attrs = some 50 := by
  constructor
  · rw [(c7_idempotent_registration initialLoggingModule "TRACE" 5 99 none none).2.2.1,
        addLoggingLevel_attrs]
    rfl
  · exact (c7_idempotent_registration initialLoggingModule "CRITICAL" 99 0 none none).1 50 rfl
/-- Lookup under a different key skips a cons cell. -/
theorem lookupKey_cons_ne {β : Type} (k key : String) (v : β) (l : List (String × β))
    (h : ¬ k = key) : lookupKey key ((k, v) :: l) = lookupKey key l := by
  simp [lookupKey, h]

/-- Lookup under the key of the front cell. -/
theorem lookupKey_cons_self {β : Type} (k : String) (v : β) (l : List (String × β)) :
    lookupKey k ((k, v) :: l) = some v := by
  simp [lookupKey]

/-- Calling `getLogger` does not change logger levels. -/
theorem getLoggerReg_levels (st : Registry) (n : String) :
    (getLoggerReg st n).levels = st.levels := by
  unfold getLoggerReg
  split <;> rfl

/-- Calling `setLevel` prepends the new level binding. -/
theorem setLoggerLevel_levels (st : Registry) (n : String) (v : Nat) :
    (setLoggerLevel st n v).levels = (n, v) :: st.levels := by
  simp [setLoggerLevel, getLoggerReg_levels]

/-- The loggers registered after `getLogger`: the requested name and the
previous ones. -/
theorem mem_getLoggerReg_iff (st : Registry) (n m : String) :
    m ∈ (getLoggerReg st n).loggerDict ↔ (m = n ∨ m ∈ st.loggerDict) := by
  unfold getLoggerReg
  split
  · constructor
    · exact Or.inr
    · rintro (rfl | h)
      · assumption
      · exact h
  · exact List.mem_cons

/-- The loggers registered after `setLevel`: the requested name and the
previous ones. -/
theorem mem_setLoggerLevel_iff (st : Registry) (n m : String) (v : Nat) :
    m ∈ (setLoggerLevel st n v).loggerDict ↔ (m = n ∨ m ∈ st.loggerDict) :=
  mem_getLoggerReg_iff st n m

/-- Claim C9: setup forces the "asyncio" and "aiohttp" loggers to CRITICAL
exactly when the configured level is at or above DEBUG, and leaves their
levels untouched when the level is below DEBUG. -/
theorem c9_quiet_noisy :
    ∀ (lm : LoggingModule) (st : Registry) (level : Nat)
      (log_colors stdout_tty stderr_tty : Bool),
      (DEBUG ≤ level →
        lookupKey ("asyncio")
            (setup lm st level log_colors stdout_tty stderr_tty).2.levels = some CRITICAL ∧
        lookupKey ("aiohttp")
            (setup lm st level log_colors stdout_tty stderr_tty).2.levels = some CRITICAL) ∧
      (level < DEBUG →
        lookupKey ("asyncio")
            (setup lm st level log_colors stdout_tty stderr_tty).2.levels =
          lookupKey ("asyncio") st.levels ∧
        lookupKey ("aiohttp")
            (setup lm st level log_colors stdout_tty stderr_tty).2.levels =
          lookupKey ("aiohttp") st.levels) := by
  intro lm st level c t1 t2
  constructor
  · intro h
    simp only [setup, List.foldl, if_pos h]
    constructor
    · rw [setLoggerLevel_levels, setLoggerLevel_levels,
          lookupKey_cons_ne _ _ _ _ (by decide), lookupKey_cons_self]
    · rw [setLoggerLevel_levels, lookupKey_cons_self]
  · intro h
    simp only [setup, List.foldl, if_neg (not_le.mpr h)]
    constructor
    · simp only [setLoggerLevel_levels]
      rw [lookupKey_cons_ne _ _ _ _ (by decide), lookupKey_cons_ne _ _ _ _ (by decide),
          lookupKey_cons_ne _ _ _ _ (by decide)]
    · simp only [setLoggerLevel_levels]
      rw [lookupKey_cons_ne _ _ _ _ (by decide), lookupKey_cons_ne _ _ _ _ (by decide),
          lookupKey_cons_ne _ _ _ _ (by decide)]

/-- Witness for C9: at level DEBUG the noisy namespaces are capped, at level
TRACE they are left unset. -/
theorem c9_quiet_noisy_witness :
    lookupKey ("asyncio")
        (setup initialLoggingModule emptyRegistry DEBUG true true true).2.levels =
      some CRITICAL ∧
    lookupKey ("asyncio")
        (setup initialLoggingModule emptyRegistry TRACE true true true).2.levels = none := by
  constructor
  · exact ((c9_quiet_noisy initialLoggingModule emptyRegistry DEBUG true true true).1
      (by decide)).1
  · rw [((c9_quiet_noisy initialLoggingModule emptyRegistry TRACE true true true).2
      (by decide)).1]
    rfl
/-- Claim C10: `disable_other_loggers` disables exactly the registered
loggers whose name is neither "dvc" nor begins with "dvc." — a predicate
matching the sibling family loggers "dvc_objects" and "dvc_data" that setup
itself configures — so after setup it disables those two, while the
disabled flag of "dvc" and of every "dvc."-prefixed logger is untouched. -/
theorem c10_disable_other :
    ∀ (lm : LoggingModule) (st : Registry) (level : Nat)
      (log_colors stdout_tty stderr_tty : Bool),
      (∀ (s : Registry) (n : String),
        isDisabled (disable_other_loggers s) n ↔
          ((n ∈ s.loggerDict ∧ ¬ n = "dvc" ∧ strStartsWith n ("dvc.") = false) ∨
            isDisabled s n)) ∧
      (isDisabled
          (disable_other_loggers (setup lm st level log_colors stdout_tty stderr_tty).2)
          ("dvc_objects") ∧
        isDisabled
          (disable_other_loggers (setup lm st level log_colors stdout_tty stderr_tty).2)
          ("dvc_data")) ∧
      (∀ n, (n = "dvc" ∨ strStartsWith n ("dvc.") = true) →
        (isDisabled
            (disable_other_loggers (setup lm st level log_colors stdout_tty stderr_tty).2) n ↔
          isDisabled (setup lm st level log_colors stdout_tty stderr_tty).2 n)) := by
  intro lm st level c t1 t2
  have hch : ∀ (s : Registry) (n : String),
      isDisabled (disable_other_loggers s) n ↔
        ((n ∈ s.loggerDict ∧ ¬ n = "dvc" ∧ strStartsWith n ("dvc.") = false) ∨
          isDisabled s n) := by
    intro s n
    simp [isDisabled, disable_other_loggers, List.mem_append, List.mem_filter,
          Bool.and_eq_true, Bool.not_eq_true']
  have hobj : "dvc_objects" ∈ (setup lm st level c t1 t2).2.loggerDict := by
    simp only [setup, List.foldl]
    split <;> simp [mem_setLoggerLevel_iff]
  have hdata : "dvc_data" ∈ (setup lm st level c t1 t2).2.loggerDict := by
    simp only [setup, List.foldl]
    split <;> simp [mem_setLoggerLevel_iff]
  refine ⟨hch, ⟨?_, ?_⟩, ?_⟩
  · exact (hch _ "dvc_objects").mpr (Or.inl ⟨hobj, by decide, by decide⟩)
  · exact (hch _ "dvc_data").mpr (Or.inl ⟨hdata, by decide, by decide⟩)
  · intro n hn
    rw [hch]
    rcases hn with h | h
    · subst h
      simp
    · simp [h]

/-- Witness for C10: after a concrete setup, the sibling family logger
"dvc_objects" is disabled while "dvc" is not. -/
theorem c10_disable_other_witness :
    isDisabled
        (disable_other_loggers (setup initialLoggingModule emptyRegistry INFO true true true).2)
        ("dvc_objects") ∧
      ¬ isDisabled
        (disable_other_loggers (setup initialLoggingModule emptyRegistry INFO true true true).2)
        ("dvc") := by
  have h := c10_disable_other initialLoggingModule emptyRegistry INFO true true true
  refine ⟨h.2.1.1, ?_⟩
  rw [h.2.2 "dvc" (Or.inl rfl)]
  simp only [isDisabled]
  decide

end DvcLogger
